import Mathlib

/-!
Shallow embedding of the PReMiuM driver `profRegr`
(src/PReMiuM/src/PReMiuM.cpp), in particular the proposal composition
sequence (lines 110-246), the model binding (lines 77-84) and the
lifecycle tail (lines 250-274).
-/

/-- The update callables passed to `addProposal` (function pointers in the
C++ source); modelled as an enumeration of tags. -/
inductive UpdateFn where
  | gibbsForVActive
  | updateForPhiActive
  | gibbsForMuActive
  | gibbsForTauActive
  | gibbsForGammaActive
  | metropolisHastingsForThetaActive
  | metropolisHastingsForLabels
  | gibbsForU
  | metropolisHastingsForAlpha
  | gibbsForVInActive
  | gibbsForPhiInActive
  | gibbsForMuInActive
  | gibbsForTauInActive
  | gibbsForGammaInActive
  | gibbsForThetaInActive
  | metropolisHastingsForBeta
  | metropolisHastingsForLambda
  | gibbsForTauEpsilon
  | metropolisHastingsForRhoOmega
  | gibbsForSigmaSqY
  | gibbsForZ
deriving DecidableEq, Repr

/-- The run options produced by `processCommandLine` and consulted by
`profRegr` (`pReMiuMOptions` in the C++ source). -/
structure pReMiuMOptions where
  nSweeps : Nat
  nBurn : Nat
  nFilter : Nat
  nProgress : Nat
  reportBurnIn : Bool
  seed : Nat
  outcomeType : String
  covariateType : String
  varSelectType : String
  samplerType : String
  fixedAlpha : ℚ
  includeResponse : Bool
  responseExtraVar : Bool
deriving DecidableEq, Repr

/-- The dataset shape consulted by `profRegr` when composing proposals
(`pReMiuMData` in the C++ source; only the derived counts matter here). -/
structure pReMiuMData where
  nCovariates : Nat
  nFixedEffects : Nat
  nCategoriesY : Nat
deriving DecidableEq, Repr

/-- A proposal descriptor as registered by
`addProposal(name, weight, repeatCount, firstActiveSweep, callable)`. -/
structure mcmcProposal where
  name : String
  weight : ℚ
  repeatCount : Nat
  firstActiveSweep : Nat
  updateFn : UpdateFn
deriving DecidableEq, Repr

/-- The ordered list of proposals registered by `profRegr`
(PReMiuM.cpp lines 110-246), translated conditional by conditional.
`options.covariateType().compare(s)==0` is string equality;
`firstSweep = 1+(unsigned int)(options.nBurn()/10)` is integer division. -/
def profRegrProposals (options : pReMiuMOptions) (dataset : pReMiuMData) :
    List mcmcProposal :=
  [⟨"gibbsForVActive", 1, 1, 1, .gibbsForVActive⟩]
  ++ (if options.covariateType = "Discrete" then
        [⟨"updateForPhiActive", 1, 1, 1, .updateForPhiActive⟩]
      else if options.covariateType = "Normal" then
        [⟨"gibbsForMuActive", 1, 1, 1, .gibbsForMuActive⟩,
         ⟨"gibbsForTauActive", 1, 1, 1, .gibbsForTauActive⟩]
      else if options.covariateType = "Mixed" then
        [⟨"updateForPhiActive", 1, 1, 1, .updateForPhiActive⟩,
         ⟨"gibbsForMuActive", 1, 1, 1, .gibbsForMuActive⟩,
         ⟨"gibbsForTauActive", 1, 1, 1, .gibbsForTauActive⟩]
      else [])
  ++ (if options.varSelectType ≠ "None" then
        (if options.varSelectType ≠ "Continuous" then
          [⟨"gibbsForGammaActive", 1, 1, 1 + options.nBurn / 10,
            .gibbsForGammaActive⟩]
         else [])
      else [])
  ++ (if options.includeResponse then
        [⟨"metropolisHastingsForThetaActive", 1, 1, 1,
          .metropolisHastingsForThetaActive⟩]
      else [])
  ++ [⟨"metropolisHastingsForLabels", 1, 1, 1, .metropolisHastingsForLabels⟩]
  ++ (if options.samplerType ≠ "Truncated" then
        [⟨"gibbsForU", 1, 1, 1, .gibbsForU⟩]
      else [])
  ++ (if options.fixedAlpha < 0 then
        [⟨"metropolisHastingsForAlpha", 1, 1, 1, .metropolisHastingsForAlpha⟩]
      else [])
  ++ [⟨"gibbsForVInActive", 1, 1, 1, .gibbsForVInActive⟩]
  ++ (if options.covariateType = "Discrete" then
        [⟨"gibbsForPhiInActive", 1, 1, 1, .gibbsForPhiInActive⟩]
      else if options.covariateType = "Normal" then
        [⟨"gibbsForMuInActive", 1, 1, 1, .gibbsForMuInActive⟩,
         ⟨"gibbsForTauInActive", 1, 1, 1, .gibbsForTauInActive⟩]
      else if options.covariateType = "Mixed" then
        [⟨"gibbsForPhiInActive", 1, 1, 1, .gibbsForPhiInActive⟩,
         ⟨"gibbsForMuInActive", 1, 1, 1, .gibbsForMuInActive⟩,
         ⟨"gibbsForTauInActive", 1, 1, 1, .gibbsForTauInActive⟩]
      else [])
  ++ (if options.varSelectType ≠ "None" then
        (if options.varSelectType ≠ "Continuous" then
          [⟨"gibbsForGammaInActive", 1, 1, 1 + options.nBurn / 10,
            .gibbsForGammaInActive⟩]
         else [])
      else [])
  ++ (if options.includeResponse then
        [⟨"gibbsForThetaInActive", 1, 1, 1, .gibbsForThetaInActive⟩]
      else [])
  ++ (if options.includeResponse then
        (if dataset.nFixedEffects > 0 then
          [⟨"metropolisHastingsForBeta", 1, 1, 1, .metropolisHastingsForBeta⟩]
         else [])
        ++ (if options.responseExtraVar then
              [⟨"metropolisHastingsForLambda", 1, 1, 1,
                .metropolisHastingsForLambda⟩,
               ⟨"gibbsForTauEpsilon", 1, 1, 1, .gibbsForTauEpsilon⟩]
            else [])
      else [])
  ++ (if options.varSelectType ≠ "None" then
        [⟨"metropolisHastingsForRhoOmega", 1, 1, 1 + options.nBurn / 10,
          .metropolisHastingsForRhoOmega⟩]
      else [])
  ++ (if options.outcomeType = "Normal" then
        [⟨"gibbsForSigmaSqY", 1, 1, 1, .gibbsForSigmaSqY⟩]
      else [])
  ++ [⟨"gibbsForZ", 1, 1, 1, .gibbsForZ⟩]

/-- The full canonical list of proposals `profRegr` can register, in
registration order (the superset reached when every guard is taken);
each configuration's registry is a sublist of this list. -/
def allProposals (options : pReMiuMOptions) : List mcmcProposal :=
  [⟨"gibbsForVActive", 1, 1, 1, .gibbsForVActive⟩]
  ++ [⟨"updateForPhiActive", 1, 1, 1, .updateForPhiActive⟩,
      ⟨"gibbsForMuActive", 1, 1, 1, .gibbsForMuActive⟩,
      ⟨"gibbsForTauActive", 1, 1, 1, .gibbsForTauActive⟩]
  ++ [⟨"gibbsForGammaActive", 1, 1, 1 + options.nBurn / 10,
      .gibbsForGammaActive⟩]
  ++ [⟨"metropolisHastingsForThetaActive", 1, 1, 1,
      .metropolisHastingsForThetaActive⟩]
  ++ [⟨"metropolisHastingsForLabels", 1, 1, 1, .metropolisHastingsForLabels⟩]
  ++ [⟨"gibbsForU", 1, 1, 1, .gibbsForU⟩]
  ++ [⟨"metropolisHastingsForAlpha", 1, 1, 1, .metropolisHastingsForAlpha⟩]
  ++ [⟨"gibbsForVInActive", 1, 1, 1, .gibbsForVInActive⟩]
  ++ [⟨"gibbsForPhiInActive", 1, 1, 1, .gibbsForPhiInActive⟩,
      ⟨"gibbsForMuInActive", 1, 1, 1, .gibbsForMuInActive⟩,
      ⟨"gibbsForTauInActive", 1, 1, 1, .gibbsForTauInActive⟩]
  ++ [⟨"gibbsForGammaInActive", 1, 1, 1 + options.nBurn / 10,
      .gibbsForGammaInActive⟩]
  ++ [⟨"gibbsForThetaInActive", 1, 1, 1, .gibbsForThetaInActive⟩]
  ++ [⟨"metropolisHastingsForBeta", 1, 1, 1, .metropolisHastingsForBeta⟩,
      ⟨"metropolisHastingsForLambda", 1, 1, 1, .metropolisHastingsForLambda⟩,
      ⟨"gibbsForTauEpsilon", 1, 1, 1, .gibbsForTauEpsilon⟩]
  ++ [⟨"metropolisHastingsForRhoOmega", 1, 1, 1 + options.nBurn / 10,
      .metropolisHastingsForRhoOmega⟩]
  ++ [⟨"gibbsForSigmaSqY", 1, 1, 1, .gibbsForSigmaSqY⟩]
  ++ [⟨"gibbsForZ", 1, 1, 1, .gibbsForZ⟩]

/-- The names of `allProposals`, in order. -/
def allProposalNames : List String :=
  ["gibbsForVActive", "updateForPhiActive", "gibbsForMuActive",
   "gibbsForTauActive", "gibbsForGammaActive",
   "metropolisHastingsForThetaActive", "metropolisHastingsForLabels",
   "gibbsForU", "metropolisHastingsForAlpha", "gibbsForVInActive",
   "gibbsForPhiInActive", "gibbsForMuInActive", "gibbsForTauInActive",
   "gibbsForGammaInActive", "gibbsForThetaInActive",
   "metropolisHastingsForBeta", "metropolisHastingsForLambda",
   "gibbsForTauEpsilon", "metropolisHastingsForRhoOmega",
   "gibbsForSigmaSqY", "gibbsForZ"]

lemma allProposals_map_name (o : pReMiuMOptions) :
    (allProposals o).map mcmcProposal.name = allProposalNames := rfl

lemma profRegrProposals_sublist (o : pReMiuMOptions) (d : pReMiuMData) :
    List.Sublist (profRegrProposals o d) (allProposals o) := by
  unfold profRegrProposals allProposals
  gcongr <;>
    first
      | decide
      | exact List.Sublist.refl _
      | (split_ifs <;>
          first
            | decide
            | exact List.Sublist.refl _
            | exact List.nil_sublist _)

lemma profRegrProposals_names_sublist (o : pReMiuMOptions) (d : pReMiuMData) :
    List.Sublist ((profRegrProposals o d).map mcmcProposal.name)
      allProposalNames :=
  allProposals_map_name o ▸
    List.Sublist.map mcmcProposal.name (profRegrProposals_sublist o d)

lemma profRegrProposals_names_nodup (o : pReMiuMOptions) (d : pReMiuMData) :
    ((profRegrProposals o d).map mcmcProposal.name).Nodup :=
  List.Nodup.sublist (profRegrProposals_names_sublist o d) (by decide)

/-- Field values common to every descriptor profRegr can register: weight
`1.0`, repeat count `1`, and first active sweep either `1` or the deferred
`1 + nBurn/10` (the latter exactly for the variable-selection proposals). -/
lemma allProposals_fields (o : pReMiuMOptions) :
    ∀ p ∈ allProposals o, p.weight = 1 ∧ p.repeatCount = 1 ∧
      (p.firstActiveSweep = 1 ∨ p.firstActiveSweep = 1 + o.nBurn / 10) ∧
      ((p.name = "gibbsForGammaActive" ∨ p.name = "gibbsForGammaInActive" ∨
        p.name = "metropolisHastingsForRhoOmega") →
        p.firstActiveSweep = 1 + o.nBurn / 10) := by
  simp only [allProposals, List.cons_append, List.singleton_append,
    List.nil_append]
  simp only [List.forall_mem_cons, List.forall_mem_singleton]
  simp

lemma profRegrProposals_fields (o : pReMiuMOptions) (d : pReMiuMData) :
    ∀ p ∈ profRegrProposals o d, p.weight = 1 ∧ p.repeatCount = 1 ∧
      (p.firstActiveSweep = 1 ∨ p.firstActiveSweep = 1 + o.nBurn / 10) ∧
      ((p.name = "gibbsForGammaActive" ∨ p.name = "gibbsForGammaInActive" ∨
        p.name = "metropolisHastingsForRhoOmega") →
        p.firstActiveSweep = 1 + o.nBurn / 10) :=
  fun p hp =>
    allProposals_fields o p (List.Sublist.subset (profRegrProposals_sublist o d) hp)

/-- Membership in an if-then-else list, split into the two branches. -/
lemma mem_ite_list {α : Type} (c : Prop) [Decidable c] (l l' : List α) (a : α) :
    (a ∈ if c then l else l') ↔ (c ∧ a ∈ l) ∨ (¬c ∧ a ∈ l') := by
  split_ifs <;> simp_all

/-- Modelled from the spec: `addProposal(descriptor)` of the sampler engine
"appends to the registry; fails if `name` is not unique or
`firstActiveSweep < 1`" (the `mcmcSampler` implementation in MCMC/sampler.h
is not under src/). -/
def addProposal (registry : List mcmcProposal) (p : mcmcProposal) :
    Option (List mcmcProposal) :=
  if p.name ∈ registry.map mcmcProposal.name ∨ p.firstActiveSweep < 1 then
    none
  else
    some (registry ++ [p])

/-- Registering a sequence of proposals with `addProposal`, propagating the
first failure, as the straight-line `addProposal` calls of `profRegr` do. -/
def addProposalSeq (registry : List mcmcProposal) :
    List mcmcProposal → Option (List mcmcProposal)
  | [] => some registry
  | p :: ps =>
      match addProposal registry p with
      | none => none
      | some r => addProposalSeq r ps

lemma addProposalSeq_eq_some (l : List mcmcProposal) :
    ∀ acc : List mcmcProposal,
      (((acc ++ l).map mcmcProposal.name).Nodup) →
      (∀ p ∈ l, 1 ≤ p.firstActiveSweep) →
      addProposalSeq acc l = some (acc ++ l) := by
  induction l with
  | nil => intro acc _ _; simp [addProposalSeq]
  | cons p ps ih =>
      intro acc h1 h2
      have h1' := h1
      simp only [List.map_append, List.map_cons] at h1'
      have hname : p.name ∉ acc.map mcmcProposal.name := fun hmem =>
        List.disjoint_of_nodup_append h1' hmem (List.mem_cons_self _ _)
      have hfas : ¬ p.firstActiveSweep < 1 := by
        have := h2 p (List.mem_cons_self p ps); omega
      have hcond : ¬ (p.name ∈ acc.map mcmcProposal.name ∨
          p.firstActiveSweep < 1) := by
        intro hc; rcases hc with hc | hc
        · exact hname hc
        · exact hfas hc
      have hstep : addProposal acc p = some (acc ++ [p]) := by
        unfold addProposal; rw [if_neg hcond]
      have hrec : addProposalSeq (acc ++ [p]) ps = some ((acc ++ [p]) ++ ps) := by
        refine ih (acc ++ [p]) ?_ ?_
        · rw [← List.append_cons]; exact h1
        · exact fun q hq => h2 q (List.mem_cons_of_mem p hq)
      unfold addProposalSeq
      rw [hstep]
      show addProposalSeq (acc ++ [p]) ps = some (acc ++ p :: ps)
      rw [hrec, ← List.append_cons]

/-- The sequence of `addProposal` calls in `profRegr` never takes the
failure branch: it succeeds and yields exactly the composed registry. -/
lemma addProposalSeq_profRegr (o : pReMiuMOptions) (d : pReMiuMData) :
    addProposalSeq [] (profRegrProposals o d) = some (profRegrProposals o d) := by
  have h := addProposalSeq_eq_some (profRegrProposals o d) []
    (by simpa using profRegrProposals_names_nodup o d)
    (fun p hp => by
      rcases (profRegrProposals_fields o d p hp).2.2.1 with h | h <;> omega)
  simpa using h

/-- The calls `profRegr` makes after proposal registration
(PReMiuM.cpp lines 250-274), in program order. -/
inductive LifeStep where
  | initialiseOutputFiles
  | writeLogFile
  | initialiseChain
  | run
  | appendToLogFile
  | closeOutputFiles
deriving DecidableEq, Repr

/-- Effect of a lifecycle call on the output-file resource: opening and
closing are counted; the other calls leave the files untouched. -/
def lifeEffect : LifeStep → Nat × Nat → Nat × Nat
  | .initialiseOutputFiles, st => (st.1 + 1, st.2)
  | .closeOutputFiles, st => (st.1, st.2 + 1)
  | _, st => st

/-- Straight-line execution of lifecycle calls as written in `profRegr`:
there is no try/catch, so a failing callable propagates to the caller and
the remaining calls are skipped. `fails` says which callables fail; the
result is the file state (open events, close events) together with whether
the run completed. -/
def execSteps (fails : LifeStep → Bool) :
    List LifeStep → Nat × Nat → (Nat × Nat) × Bool
  | [], st => (st, true)
  | s :: rest, st =>
      if fails s then (st, false)
      else execSteps fails rest (lifeEffect s st)

/-- The lifecycle tail of `profRegr` (lines 250-274):
`initialiseOutputFiles`, `writeLogFile`, `initialiseChain`, `run`,
`appendToLogFile`, `closeOutputFiles`, in that order. -/
def profRegrLifecycleTail : List LifeStep :=
  [.initialiseOutputFiles, .writeLogFile, .initialiseChain, .run,
   .appendToLogFile, .closeOutputFiles]

/-- File-resource outcome of running `profRegr`'s lifecycle tail when the
callables in `fails` fail. -/
def profRegrFileOutcome (fails : LifeStep → Bool) : (Nat × Nat) × Bool :=
  execSteps fails profRegrLifecycleTail (0, 0)

/-- The model binding installed by `profRegr` (PReMiuM.cpp lines 77-84):
callables are identified by the names of the functions whose addresses are
taken in the source. -/
structure modelBinding where
  importFn : String
  initFn : String
  logPostFn : String
  hasMissingData : Bool
  missingDataFn : Option String
  outputFn : String
deriving DecidableEq, Repr

/-- The binding `profRegr` installs before importing data: the
has-missing-data flag is the literal `true` in the call
`pReMiuMSampler.model(&importPReMiuMData,&initialisePReMiuM,&pReMiuMLogPost,true)`,
and `updateMissingPReMiuMData` is set as the missing-data updater,
for every parsed options value. -/
def profRegrModelSetup (_options : pReMiuMOptions) : modelBinding :=
  { importFn := "importPReMiuMData"
  , initFn := "initialisePReMiuM"
  , logPostFn := "pReMiuMLogPost"
  , hasMissingData := true
  , missingDataFn := some "updateMissingPReMiuMData"
  , outputFn := "writePReMiuMOutput" }

/-- Modelled from the spec: step 1 of the sweep loop (the `mcmcSampler::run`
implementation is not under src/) — "If the Model Binding declares missing
data present, invoke the missing-data updater against the current Chain
State before any proposal executes"; so on each sweep the updater is
invoked exactly when the flag is set and an updater is installed. -/
def sweepInvokesMissingUpdate (m : modelBinding) (_sweep : Nat) : Bool :=
  m.hasMissingData && m.missingDataFn.isSome

/-- An options value matching the end-to-end scenario of claim C1. -/
def optionsNormalScenario : pReMiuMOptions :=
  { nSweeps := 100, nBurn := 10, nFilter := 1, nProgress := 10,
    reportBurnIn := false, seed := 1,
    outcomeType := "Normal", covariateType := "Normal",
    varSelectType := "None", samplerType := "Truncated",
    fixedAlpha := 1, includeResponse := true, responseExtraVar := true }

/-- A dataset shape with one fixed effect. -/
def dataOneFixedEffect : pReMiuMData :=
  { nCovariates := 2, nFixedEffects := 1, nCategoriesY := 1 }

/-- An options value with binary variable selection and `nBurn = 50`. -/
def optionsBinaryVarSelect : pReMiuMOptions :=
  { nSweeps := 100, nBurn := 50, nFilter := 1, nProgress := 10,
    reportBurnIn := false, seed := 0,
    outcomeType := "Bernoulli", covariateType := "Discrete",
    varSelectType := "Binary", samplerType := "Truncated",
    fixedAlpha := 1, includeResponse := false, responseExtraVar := false }

/-- A dataset shape with no fixed effects. -/
def dataNoFixedEffects : pReMiuMData :=
  { nCovariates := 2, nFixedEffects := 0, nCategoriesY := 2 }

/-- An options value with `nSweeps = 1` but `nBurn = 100` and binary
variable selection: deferred proposals then get
`firstActiveSweep = 11 > nSweeps`. -/
def optionsShortRun : pReMiuMOptions :=
  { nSweeps := 1, nBurn := 100, nFilter := 1, nProgress := 1,
    reportBurnIn := false, seed := 0,
    outcomeType := "Bernoulli", covariateType := "Discrete",
    varSelectType := "Binary", samplerType := "Truncated",
    fixedAlpha := 1, includeResponse := false, responseExtraVar := false }

/-- C1: with `covariateType = "Normal"`, `includeResponse`,
`responseExtraVar`, `varSelectType = "None"`, `samplerType = "Truncated"`,
`fixedAlpha = 1.0`, `outcomeType = "Normal"` and a dataset with at least
one fixed effect, `profRegr` registers exactly the fourteen listed
proposals in order, with no `metropolisHastingsForAlpha` and no
`gibbsForU`. -/
theorem profRegr_registers_normal_scenario
    (o : pReMiuMOptions) (d : pReMiuMData)
    (hct : o.covariateType = "Normal") (hir : o.includeResponse = true)
    (hev : o.responseExtraVar = true) (hvs : o.varSelectType = "None")
    (hst : o.samplerType = "Truncated") (hfa : o.fixedAlpha = 1)
    (hot : o.outcomeType = "Normal") (hfe : 0 < d.nFixedEffects) :
    (profRegrProposals o d).map mcmcProposal.name =
      ["gibbsForVActive", "gibbsForMuActive", "gibbsForTauActive",
       "metropolisHastingsForThetaActive", "metropolisHastingsForLabels",
       "gibbsForVInActive", "gibbsForMuInActive", "gibbsForTauInActive",
       "gibbsForThetaInActive", "metropolisHastingsForBeta",
       "metropolisHastingsForLambda", "gibbsForTauEpsilon",
       "gibbsForSigmaSqY", "gibbsForZ"] ∧
    "metropolisHastingsForAlpha" ∉
      (profRegrProposals o d).map mcmcProposal.name ∧
    "gibbsForU" ∉ (profRegrProposals o d).map mcmcProposal.name := by
  have hmap : (profRegrProposals o d).map mcmcProposal.name =
      ["gibbsForVActive", "gibbsForMuActive", "gibbsForTauActive",
       "metropolisHastingsForThetaActive", "metropolisHastingsForLabels",
       "gibbsForVInActive", "gibbsForMuInActive", "gibbsForTauInActive",
       "gibbsForThetaInActive", "metropolisHastingsForBeta",
       "metropolisHastingsForLambda", "gibbsForTauEpsilon",
       "gibbsForSigmaSqY", "gibbsForZ"] := by
    unfold profRegrProposals
    rw [hct, hvs, hst, hfa, hot, hir, hev]
    norm_num [hfe]
    decide
  refine ⟨hmap, ?_, ?_⟩ <;> rw [hmap] <;> decide

/-- Claim C1 witness: the scenario evaluated at a concrete options value
and a dataset with one fixed effect. -/
theorem profRegr_registers_normal_scenario_witness :
    (profRegrProposals optionsNormalScenario dataOneFixedEffect).map
        mcmcProposal.name =
      ["gibbsForVActive", "gibbsForMuActive", "gibbsForTauActive",
       "metropolisHastingsForThetaActive", "metropolisHastingsForLabels",
       "gibbsForVInActive", "gibbsForMuInActive", "gibbsForTauInActive",
       "gibbsForThetaInActive", "metropolisHastingsForBeta",
       "metropolisHastingsForLambda", "gibbsForTauEpsilon",
       "gibbsForSigmaSqY", "gibbsForZ"] ∧
    "metropolisHastingsForAlpha" ∉
      (profRegrProposals optionsNormalScenario dataOneFixedEffect).map
        mcmcProposal.name ∧
    "gibbsForU" ∉
      (profRegrProposals optionsNormalScenario dataOneFixedEffect).map
        mcmcProposal.name :=
  profRegr_registers_normal_scenario optionsNormalScenario dataOneFixedEffect
    rfl rfl rfl rfl rfl rfl rfl (by decide)

/-- C2 (amended): every proposal registered by `profRegr` has
`firstActiveSweep` equal to `1` or to `1 + nBurn/10`, so whenever
`1 + nBurn/10 ≤ nSweeps` every registered descriptor satisfies
`firstActiveSweep ≤ nSweeps`; the code does not enforce this bound for
arbitrary `nBurn`/`nSweeps` combinations. -/
theorem profRegr_firstActiveSweep_le_nSweeps
    (o : pReMiuMOptions) (d : pReMiuMData)
    (h : 1 + o.nBurn / 10 ≤ o.nSweeps) :
    ∀ p ∈ profRegrProposals o d, p.firstActiveSweep ≤ o.nSweeps := by
  intro p hp
  rcases (profRegrProposals_fields o d p hp).2.2.1 with h1 | h1 <;> omega

/-- Claim C2 witness: with `nBurn = 50` and `nSweeps = 100` the deferred
`metropolisHastingsForRhoOmega` descriptor, registered with
`firstActiveSweep = 6`, satisfies the bound. -/
theorem profRegr_firstActiveSweep_le_nSweeps_witness :
    (⟨"metropolisHastingsForRhoOmega", 1, 1, 6,
       .metropolisHastingsForRhoOmega⟩ : mcmcProposal).firstActiveSweep ≤
      optionsBinaryVarSelect.nSweeps :=
  profRegr_firstActiveSweep_le_nSweeps optionsBinaryVarSelect
    dataNoFixedEffects (by decide)
    ⟨"metropolisHastingsForRhoOmega", 1, 1, 6, .metropolisHastingsForRhoOmega⟩
    (by decide)

/-- Claim C2 counterexample: with `nSweeps = 1`, `nBurn = 100` and
`varSelectType = "Binary"`, `profRegr` registers variable-selection
proposals whose `firstActiveSweep = 11` exceeds `nSweeps`, so the claimed
invariant `firstActiveSweep ≤ nSweeps` fails. -/
theorem profRegr_firstActiveSweep_gt_nSweeps_cx :
    ¬ (∀ p ∈ profRegrProposals optionsShortRun dataNoFixedEffects,
        p.firstActiveSweep ≤ optionsShortRun.nSweeps) := by decide

/-- C4: whenever `varSelectType ≠ "None"`, every variable-selection
proposal registered by `profRegr` (`gibbsForGammaActive`,
`gibbsForGammaInActive`, `metropolisHastingsForRhoOmega`) has
`firstActiveSweep = 1 + nBurn/10`; `metropolisHastingsForRhoOmega` is
always registered in that case, and the two gamma updates are registered
exactly when additionally `varSelectType ≠ "Continuous"`. -/
theorem profRegr_deferred_varselect (o : pReMiuMOptions) (d : pReMiuMData)
    (hv : o.varSelectType ≠ "None") :
    (∀ p ∈ profRegrProposals o d,
      (p.name = "gibbsForGammaActive" ∨ p.name = "gibbsForGammaInActive" ∨
       p.name = "metropolisHastingsForRhoOmega") →
      p.firstActiveSweep = 1 + o.nBurn / 10) ∧
    (⟨"metropolisHastingsForRhoOmega", 1, 1, 1 + o.nBurn / 10,
       .metropolisHastingsForRhoOmega⟩ ∈ profRegrProposals o d) ∧
    (o.varSelectType ≠ "Continuous" →
      (⟨"gibbsForGammaActive", 1, 1, 1 + o.nBurn / 10,
         .gibbsForGammaActive⟩ ∈ profRegrProposals o d) ∧
      (⟨"gibbsForGammaInActive", 1, 1, 1 + o.nBurn / 10,
         .gibbsForGammaInActive⟩ ∈ profRegrProposals o d)) := by
  refine ⟨fun p hp hn => (profRegrProposals_fields o d p hp).2.2.2 hn, ?_, ?_⟩
  · simp [profRegrProposals, hv, List.mem_append]
  · intro hc
    constructor <;> simp [profRegrProposals, hv, hc, List.mem_append]

/-- Claim C4 witness: with `varSelectType = "Binary"` and `nBurn = 50` the
three deferred proposals are registered with `firstActiveSweep = 6`. -/
theorem profRegr_deferred_varselect_witness :
    (∀ p ∈ profRegrProposals optionsBinaryVarSelect dataNoFixedEffects,
      (p.name = "gibbsForGammaActive" ∨ p.name = "gibbsForGammaInActive" ∨
       p.name = "metropolisHastingsForRhoOmega") →
      p.firstActiveSweep = 6) ∧
    (⟨"metropolisHastingsForRhoOmega", 1, 1, 6,
       .metropolisHastingsForRhoOmega⟩ ∈
      profRegrProposals optionsBinaryVarSelect dataNoFixedEffects) ∧
    (optionsBinaryVarSelect.varSelectType ≠ "Continuous" →
      (⟨"gibbsForGammaActive", 1, 1, 6, .gibbsForGammaActive⟩ ∈
        profRegrProposals optionsBinaryVarSelect dataNoFixedEffects) ∧
      (⟨"gibbsForGammaInActive", 1, 1, 6, .gibbsForGammaInActive⟩ ∈
        profRegrProposals optionsBinaryVarSelect dataNoFixedEffects)) :=
  profRegr_deferred_varselect optionsBinaryVarSelect dataNoFixedEffects
    (by decide)

/-- C5: `metropolisHastingsForAlpha` is registered iff `fixedAlpha < 0`,
and with no fixed effects `metropolisHastingsForBeta` is never registered,
whatever `includeResponse` is. -/
theorem profRegr_alpha_iff_and_beta_absent
    (o : pReMiuMOptions) (d : pReMiuMData) :
    ("metropolisHastingsForAlpha" ∈
        (profRegrProposals o d).map mcmcProposal.name ↔ o.fixedAlpha < 0) ∧
    (d.nFixedEffects = 0 →
      "metropolisHastingsForBeta" ∉
        (profRegrProposals o d).map mcmcProposal.name) := by
  constructor
  · by_cases h : o.fixedAlpha < 0 <;>
      simp [profRegrProposals, h, List.mem_append, mem_ite_list,
        apply_ite (List.map mcmcProposal.name)]
  · intro h0
    simp [profRegrProposals, h0, List.mem_append, mem_ite_list,
      apply_ite (List.map mcmcProposal.name)]

/-- An options value with `fixedAlpha = -1` (estimate alpha by MH). -/
def optionsAlphaEstimated : pReMiuMOptions :=
  { nSweeps := 100, nBurn := 10, nFilter := 1, nProgress := 10,
    reportBurnIn := false, seed := 0,
    outcomeType := "Bernoulli", covariateType := "Discrete",
    varSelectType := "None", samplerType := "Truncated",
    fixedAlpha := -1, includeResponse := true, responseExtraVar := false }

/-- An options value with `fixedAlpha = 2.5` (alpha held fixed). -/
def optionsAlphaFixed : pReMiuMOptions :=
  { nSweeps := 100, nBurn := 10, nFilter := 1, nProgress := 10,
    reportBurnIn := false, seed := 0,
    outcomeType := "Bernoulli", covariateType := "Discrete",
    varSelectType := "None", samplerType := "Truncated",
    fixedAlpha := 5 / 2, includeResponse := true, responseExtraVar := false }

/-- Claim C5 witness: `metropolisHastingsForAlpha` is registered at
`fixedAlpha = -1` and not at `fixedAlpha = 2.5`, and with no fixed effects
`metropolisHastingsForBeta` is not registered even though
`includeResponse` is set. -/
theorem profRegr_alpha_iff_and_beta_absent_witness :
    ("metropolisHastingsForAlpha" ∈
      (profRegrProposals optionsAlphaEstimated dataNoFixedEffects).map
        mcmcProposal.name) ∧
    ("metropolisHastingsForAlpha" ∉
      (profRegrProposals optionsAlphaFixed dataNoFixedEffects).map
        mcmcProposal.name) ∧
    ("metropolisHastingsForBeta" ∉
      (profRegrProposals optionsAlphaFixed dataNoFixedEffects).map
        mcmcProposal.name) := by
  refine ⟨(profRegr_alpha_iff_and_beta_absent optionsAlphaEstimated
      dataNoFixedEffects).1.mpr (by norm_num [optionsAlphaEstimated]),
    fun h => ?_,
    (profRegr_alpha_iff_and_beta_absent optionsAlphaFixed
      dataNoFixedEffects).2 rfl⟩
  have hlt := (profRegr_alpha_iff_and_beta_absent optionsAlphaFixed
    dataNoFixedEffects).1.mp h
  norm_num [optionsAlphaFixed] at hlt

/-- C6: with an unrecognized `covariateType`, none of the six
covariate-block proposals is registered, and the composition still
succeeds (no `addProposal` failure). -/
theorem profRegr_unrecognized_covariate (o : pReMiuMOptions) (d : pReMiuMData)
    (h1 : o.covariateType ≠ "Discrete") (h2 : o.covariateType ≠ "Normal")
    (h3 : o.covariateType ≠ "Mixed") :
    (∀ s ∈ (["updateForPhiActive", "gibbsForMuActive", "gibbsForTauActive",
             "gibbsForPhiInActive", "gibbsForMuInActive",
             "gibbsForTauInActive"] : List String),
      s ∉ (profRegrProposals o d).map mcmcProposal.name) ∧
    addProposalSeq [] (profRegrProposals o d) =
      some (profRegrProposals o d) := by
  refine ⟨?_, addProposalSeq_profRegr o d⟩
  intro s hs
  fin_cases hs <;>
    simp [profRegrProposals, h1, h2, h3, List.mem_append, mem_ite_list,
      apply_ite (List.map mcmcProposal.name)]

/-- Claim C6 witness: evaluated at `covariateType = "Unrecognized"`. -/
theorem profRegr_unrecognized_covariate_witness :
    (∀ s ∈ (["updateForPhiActive", "gibbsForMuActive", "gibbsForTauActive",
             "gibbsForPhiInActive", "gibbsForMuInActive",
             "gibbsForTauInActive"] : List String),
      s ∉ (profRegrProposals
            { optionsBinaryVarSelect with covariateType := "Unrecognized" }
            dataNoFixedEffects).map mcmcProposal.name) ∧
    addProposalSeq []
        (profRegrProposals
          { optionsBinaryVarSelect with covariateType := "Unrecognized" }
          dataNoFixedEffects) =
      some (profRegrProposals
        { optionsBinaryVarSelect with covariateType := "Unrecognized" }
        dataNoFixedEffects) :=
  profRegr_unrecognized_covariate
    { optionsBinaryVarSelect with covariateType := "Unrecognized" }
    dataNoFixedEffects (by decide) (by decide) (by decide)

/-- C7: the registry is never empty, always starts with the active
stick-breaking weight update `gibbsForVActive` and always ends with the
allocation update `gibbsForZ`. -/
theorem profRegr_first_and_last (o : pReMiuMOptions) (d : pReMiuMData) :
    profRegrProposals o d ≠ [] ∧
    (profRegrProposals o d).head? =
      some ⟨"gibbsForVActive", 1, 1, 1, .gibbsForVActive⟩ ∧
    (profRegrProposals o d).getLast? =
      some ⟨"gibbsForZ", 1, 1, 1, .gibbsForZ⟩ := by
  have hhead : (profRegrProposals o d).head? =
      some ⟨"gibbsForVActive", 1, 1, 1, .gibbsForVActive⟩ := rfl
  have hlast : (profRegrProposals o d).getLast? =
      some ⟨"gibbsForZ", 1, 1, 1, .gibbsForZ⟩ := by
    unfold profRegrProposals
    rw [List.getLast?_append_cons]
    rfl
  refine ⟨?_, hhead, hlast⟩
  intro hnil
  rw [hnil] at hhead
  simp at hhead

/-- C8: the registry is a pure function of the configuration fields and
the dataset shape: two compositions whose configurations agree field by
field and whose dataset shapes agree produce the same ordered descriptor
list (in particular there is no hidden state; the result does not even
depend on `nSweeps`, `nFilter`, `nProgress`, `reportBurnIn` or `seed`). -/
theorem profRegr_composition_pure
    (o1 o2 : pReMiuMOptions) (d1 d2 : pReMiuMData)
    (hct : o1.covariateType = o2.covariateType)
    (hvs : o1.varSelectType = o2.varSelectType)
    (hst : o1.samplerType = o2.samplerType)
    (hot : o1.outcomeType = o2.outcomeType)
    (hir : o1.includeResponse = o2.includeResponse)
    (hev : o1.responseExtraVar = o2.responseExtraVar)
    (hfa : o1.fixedAlpha = o2.fixedAlpha)
    (hnb : o1.nBurn = o2.nBurn)
    (_hnc : d1.nCovariates = d2.nCovariates)
    (hnf : d1.nFixedEffects = d2.nFixedEffects)
    (_hny : d1.nCategoriesY = d2.nCategoriesY) :
    profRegrProposals o1 d1 = profRegrProposals o2 d2 := by
  unfold profRegrProposals
  rw [hct, hvs, hst, hot, hir, hev, hfa, hnb, hnf]

/-- Claim C8 witness: two identical configuration/dataset values yield the
same registry. -/
theorem profRegr_composition_pure_witness :
    profRegrProposals optionsNormalScenario dataOneFixedEffect =
      profRegrProposals optionsNormalScenario dataOneFixedEffect :=
  profRegr_composition_pure optionsNormalScenario optionsNormalScenario
    dataOneFixedEffect dataOneFixedEffect
    rfl rfl rfl rfl rfl rfl rfl rfl rfl rfl rfl

/-- C9: the `addProposal` calls of `profRegr` never hit the failure
branch: registered names are pairwise distinct, every descriptor has
`firstActiveSweep ≥ 1`, weight `1 > 0` and repeat count `1 ≥ 1`, so
registering the whole sequence succeeds and returns the full registry. -/
theorem profRegr_addProposal_never_fails
    (o : pReMiuMOptions) (d : pReMiuMData) :
    ((profRegrProposals o d).map mcmcProposal.name).Nodup ∧
    (∀ p ∈ profRegrProposals o d,
      1 ≤ p.firstActiveSweep ∧ 0 < p.weight ∧ 1 ≤ p.repeatCount) ∧
    addProposalSeq [] (profRegrProposals o d) =
      some (profRegrProposals o d) := by
  refine ⟨profRegrProposals_names_nodup o d, ?_, addProposalSeq_profRegr o d⟩
  intro p hp
  obtain ⟨hw, hr, hfas, -⟩ := profRegrProposals_fields o d p hp
  refine ⟨?_, ?_, ?_⟩
  · rcases hfas with h | h <;> omega
  · rw [hw]; norm_num
  · rw [hr]

/-- C10: `profRegr` binds the model with the has-missing-data flag
hard-coded to `true` and installs `updateMissingPReMiuMData` as the
missing-data updater, for every options value; hence (by the sweep-loop
contract) the missing-data updater is invoked on every sweep. -/
theorem profRegr_missing_data_always_on (o : pReMiuMOptions) (s : Nat) :
    (profRegrModelSetup o).hasMissingData = true ∧
    (profRegrModelSetup o).missingDataFn = some "updateMissingPReMiuMData" ∧
    sweepInvokesMissingUpdate (profRegrModelSetup o) s = true :=
  ⟨rfl, rfl, rfl⟩

/-- C3 (amended): on the normal-completion path `profRegr` opens the
output files once and closes them exactly once via `closeOutputFiles`. -/
theorem profRegr_files_closed_on_success (fails : LifeStep → Bool)
    (h : ∀ s, fails s = false) :
    profRegrFileOutcome fails = ((1, 1), true) := by
  simp [profRegrFileOutcome, profRegrLifecycleTail, execSteps, lifeEffect, h]

/-- Claim C3 witness: with no failing callable the outcome is one open
event, one close event, and successful completion. -/
theorem profRegr_files_closed_on_success_witness :
    profRegrFileOutcome (fun _ => false) = ((1, 1), true) :=
  profRegr_files_closed_on_success (fun _ => false) (fun _ => rfl)

/-- Claim C3 counterexample: if `run` fails after `initialiseOutputFiles`
succeeded, the failure propagates past the `closeOutputFiles` call at the
end of `profRegr`; the files are opened (one open event) but never closed
(zero close events, not one), refuting closure on every exit path. -/
theorem profRegr_files_not_closed_on_run_failure_cx :
    (profRegrFileOutcome (fun s => decide (s = LifeStep.run))).1 = (1, 0) ∧
    (profRegrFileOutcome (fun s => decide (s = LifeStep.run))).2 = false ∧
    ¬ (profRegrFileOutcome (fun s => decide (s = LifeStep.run))).1.2 = 1 := by
  decide
